import Mathlib

/-!
Verification of the session/event bridge of src/bot/agent_proxy.py
(agent-synapse-proxy). We shallowly embed the Python code: strings are
Lean strings (Python characters become Lean chars), exceptions become
an explicit error alternative, and the asynchronous event stream that a
Send call aggregates becomes an explicit finite list of typed events
processed in delivery order up to the first terminal event.
-/

/-- Python truthiness of an optional string: None and the empty string
are falsy, every other string is truthy. -/
def optTruthy : Option String → Bool
  | none => false
  | some s => s ≠ ""

/-- The characters Python str.strip() removes: exactly those for which
str.isspace() holds, i.e. the ASCII and Latin-1 control whitespace
(tab, newline, vertical tab, form feed, carriage return, the file to
unit separators 1c-1f, next line 85, no-break space a0) together with
the Unicode space separators and the line and paragraph separators
(1680, the 2000-200a block, 2028, 2029, 202f, 205f, 3000). -/
def isPyWs (c : Char) : Bool :=
  c = ' ' || c = '\t' || c = '\n' || c = '\u000b' || c = '\u000c' ||
    c = '\u000d' || c = '\u001c' || c = '\u001d' || c = '\u001e' ||
    c = '\u001f' || c = '\u0085' || c = '\u00a0' || c = '\u1680' ||
    ('\u2000' ≤ c && c ≤ '\u200a') ||
    c = '\u2028' || c = '\u2029' || c = '\u202f' || c = '\u205f' ||
    c = '\u3000'

/-- Model of Python str.strip(): remove leading and trailing whitespace. -/
def pyStrip (s : String) : String :=
  (((s.data.dropWhile isPyWs).reverse.dropWhile isPyWs).reverse).asString

/-- Concatenation of a list of strings, modelling Python "".join(collected). -/
def joinAll : List String → String
  | [] => ""
  | s :: rest => s ++ joinAll rest

/-- Payload of a SESSION_ERROR event: handle_event reads
getattr(event.data, 'message', str(event.data)), so the data either has a
message attribute or falls back to its string rendering. -/
structure ErrorData where
  message : Option String
  fallback : String
deriving DecidableEq, Repr

/-- The message extracted from a SESSION_ERROR payload by handle_event. -/
def errMsg (d : ErrorData) : String :=
  d.message.getD d.fallback

/-- The typed session events dispatched to handle_event in
CopilotAgent.send. A delta carries delta_content (possibly None), idle
and error are the two terminal signals, and every other event type is
ignored by the handler. -/
inductive SessionEvent where
  | delta (content : Option String)
  | idle
  | sessionError (data : ErrorData)
  | other
deriving DecidableEq, Repr

/-- State of one aggregation after consuming a finite event list:
either the done event never fired (Send would still be waiting), or it
fired with the collected fragments and the error_holder contents. -/
inductive AggOutcome where
  | pending (collected : List String)
  | finished (collected : List String) (errorHolder : Option String)
deriving DecidableEq, Repr

/-- handle_event folded over the delivered events, in order, up to the
first terminal event (SESSION_IDLE or SESSION_ERROR): a truthy
delta_content is appended to collected; idle sets the done event; an
error stores its message in error_holder and sets the done event. -/
def runEvents (collected : List String) : List SessionEvent → AggOutcome
  | [] => .pending collected
  | .delta c :: rest =>
      runEvents (if optTruthy c then collected ++ [c.getD ""] else collected) rest
  | .idle :: _ => .finished collected none
  | .sessionError d :: _ => .finished collected (some (errMsg d))
  | .other :: rest => runEvents collected rest

/-- The fragments collected so far, whether or not a terminal event has
arrived; used for the buffer contents at the moment an exception is
raised inside the try block. -/
def collectedOf (evs : List SessionEvent) : List String :=
  match runEvents [] evs with
  | .pending c => c
  | .finished c _ => c

/-- One complete execution scenario of CopilotAgent.send after the
session check: either the send/wait machinery completes normally and the
listed events were delivered, or an exception rendering as exc is raised
inside the try block after the listed events were processed. -/
inductive SendScenario where
  | noRaise (events : List SessionEvent)
  | raised (events : List SessionEvent) (exc : String)
deriving DecidableEq, Repr

/-- Model of CopilotAgent.send (src/bot/agent_proxy.py, lines 125-177).
Returns none when the call never resolves (no terminal event fires and
nothing is raised: done_event.wait() blocks forever, there is no
timeout); otherwise some returned string. The on_delta callback is
fire-and-forget and does not influence the returned string, so it is
not modelled. -/
def sendModel (sessionInit : Bool) (sc : SendScenario) : Option String :=
  if !sessionInit then
    some "❌ Copilot session not initialized"
  else
    match sc with
    | .raised evs e =>
        let stripped := pyStrip (joinAll (collectedOf evs))
        if stripped ≠ "" then
          some (stripped ++ "\n\n⚠️ *(error: " ++ e ++ ")*")
        else
          some ("❌ Copilot error: " ++ e)
    | .noRaise evs =>
        match runEvents [] evs with
        | .pending _ => none
        | .finished collected errorHolder =>
            if optTruthy errorHolder then
              let m := errorHolder.getD ""
              let stripped := pyStrip (joinAll collected)
              if stripped ≠ "" then
                some (stripped ++ "\n\n⚠️ *Error: " ++ m ++ "*")
              else
                some ("❌ Copilot error: " ++ m)
            else
              let response := joinAll collected
              if pyStrip response ≠ "" then some response
              else some "(empty response)"

/-- A finite sequence of delta events, one per fragment, followed by a
single idle event: the scenario of the aggregation-completeness claim. -/
def deltasThenIdle (ds : List String) : List SessionEvent :=
  ds.map (fun s => SessionEvent.delta (some s)) ++ [SessionEvent.idle]

/-- A finite sequence of delta events followed by a session error
carrying message m. -/
def deltasThenError (ds : List String) (m : String) : List SessionEvent :=
  ds.map (fun s => SessionEvent.delta (some s)) ++
    [SessionEvent.sessionError ⟨some m, ""⟩]

/-- Transport payload ceiling used by AgentProxyBot._on_message. -/
def MAX_CHUNK : Nat := 30000

/-- Consecutive fixed-size slices of m+1 characters, modelling the
Python list comprehension result[i:i+max_len] for i in
range(0, len(result), max_len) at the character level. -/
def chunksAux (m : Nat) : List Char → List (List Char)
  | [] => []
  | c :: cs => ((c :: cs).take (m + 1)) :: chunksAux m ((c :: cs).drop (m + 1))
termination_by l => l.length
decreasing_by
  simp only [List.length_drop, List.length_cons]
  omega

/-- The unlabeled slice bodies of a response text under the 30000-char
ceiling (for len(result) <= 30000 this is the single slice [result]). -/
def chunkBodies (result : String) : List String :=
  (chunksAux (MAX_CHUNK - 1) result.data).map List.asString

/-- Model of the delivery part of AgentProxyBot._on_message
(src/bot/agent_proxy.py, lines 293-300): the ordered list of transport
message bodies handed to self._send for one Copilot result. A short
result goes out as one message; a long one is split into 30000-char
slices, each prefixed with a Part i/N label. -/
def deliverChunked (result : String) : List String :=
  if result.length ≤ MAX_CHUNK then [result]
  else
    let chunks := chunkBodies result
    (chunks.enum).map fun p =>
      "**[Part " ++ toString (p.1 + 1) ++ "/" ++ toString chunks.length ++ "]**\n" ++ p.2

/-- The configuration fields of BotConfig (src/bot/config.py) that the
verified core reads: the working directory, the store root, the bot's
own Matrix id and the single authorized admin id. -/
structure BotConfig where
  work_dir : String
  store_path : String
  bot_user_id : String
  admin_user : String
deriving DecidableEq, Repr

/-- Components of a character list split on the slash separator. -/
def splitSlash : List Char → List (List Char)
  | [] => [[]]
  | c :: rest =>
      let r := splitSlash rest
      if c = '/' then [] :: r
      else (c :: r.headD []) :: r.tail

/-- Model of pathlib's Path(p).name: pathlib drops empty components and
single-dot components while parsing (double dots are kept), and name is
the last remaining component, empty for a root or dot-only path. -/
def pathName (p : String) : String :=
  let parts := ((splitSlash p.data).map List.asString).filter
    (fun c => c ≠ "" && c ≠ ".")
  parts.getLastD ""

/-- Model of _session_file (src/bot/agent_proxy.py, lines 40-43): the
per-working-directory JSON file under the store root that holds the
Copilot session id. -/
def sessionFilePath (config : BotConfig) : String :=
  config.store_path ++ "/copilot_session_" ++ pathName config.work_dir ++ ".json"

/-- Contents of a stored session file as far as load_saved_session
inspects them: either a JSON object whose session_id key holds the
given value (none when the key is absent), or content that
json.loads or the dictionary access fails on. -/
inductive FileContent where
  | obj (session_id : Option String)
  | malformed
deriving DecidableEq, Repr

/-- The filesystem as the persistence helpers see it: the readable
files, and for each path optionally an error that a write at that path
raises (none everywhere models a healthy disk). -/
structure FS where
  files : String → Option FileContent
  writeFails : String → Option String

/-- Model of load_saved_session (src/bot/agent_proxy.py, lines 46-58):
none when the file is absent; none when reading or parsing raises (the
exception is caught and logged); otherwise exactly data.get("session_id"),
which may itself be absent. -/
def load_saved_session (fs : FS) (config : BotConfig) : Option String :=
  match fs.files (sessionFilePath config) with
  | none => none
  | some .malformed => none
  | some (.obj sid) => sid

/-- Model of save_session (src/bot/agent_proxy.py, lines 61-65): create
the parent directory, then write the JSON record. There is no exception
handler in the source, so a failing write propagates as the error. -/
def save_session (fs : FS) (config : BotConfig) (session_id : String) :
    Except String FS :=
  let path := sessionFilePath config
  match fs.writeFails path with
  | some e => .error e
  | none =>
      .ok { fs with files := fun p =>
              if p = path then some (.obj (some session_id)) else fs.files p }

/-- The backend session handle as CopilotAgent.start reads it: its
optional session_id attribute (none models a handle without the
attribute or with a falsy id, both tolerated by the persistence step). -/
structure SessionHandle where
  session_id : Option String
deriving DecidableEq, Repr

/-- Result of the resumption phase of CopilotAgent.start: the session
handle, the recorded resumed flag, and the session_id fields of the
session configs passed to create_session, in call order. -/
structure StartResult where
  session : SessionHandle
  resumed : Bool
  createCalls : List (Option String)
deriving DecidableEq, Repr

/-- Model of the session-establishment part of CopilotAgent.start
(src/bot/agent_proxy.py, lines 102-123). create abstracts
copilot_client.create_session and is keyed by the session_id field of
the config it receives (the other config fields are fixed). A truthy
saved id triggers a resumption attempt; any failure there is caught,
session_id is popped from the config, and a fresh session is created;
an error from the fresh creation itself propagates (fatal startup). -/
def start_model (saved : Option String)
    (create : Option String → Except String SessionHandle) :
    Except String StartResult :=
  if optTruthy saved then
    match create saved with
    | .ok s => .ok ⟨s, true, [saved]⟩
    | .error _ =>
        match create none with
        | .ok s => .ok ⟨s, false, [saved, none]⟩
        | .error e => .error e
  else
    match create none with
    | .ok s => .ok ⟨s, false, [none]⟩
    | .error e => .error e

/-- Model of the persistence step of CopilotAgent.start
(src/bot/agent_proxy.py, lines 119-121): if the session handle exposes
a truthy session_id, call save_session; there is no handler, so a
save_session error propagates out of start. -/
def start_persist (fs : FS) (config : BotConfig) (session : SessionHandle) :
    Except String FS :=
  if optTruthy session.session_id then
    save_session fs config (session.session_id.getD "")
  else
    .ok fs

/-- What AgentProxyBot._on_message does with one inbound message:
either it returns without contacting Copilot, or it forwards the
trimmed body to CopilotAgent.send. -/
inductive MsgAction where
  | ignored
  | forwarded (prompt : String)
deriving DecidableEq, Repr

/-- The wrong-room guard of _on_message: Python
if self.room_id and room.room_id != self.room_id. -/
def roomMismatch (rid : Option String) (roomId : String) : Bool :=
  match rid with
  | none => false
  | some r => r ≠ "" && roomId ≠ r

/-- The mutable bridge state read by the _on_message guards. -/
structure BridgeState where
  room_id : Option String
  startup_sync_done : Bool
deriving DecidableEq, Repr

/-- Model of the filter prefix of AgentProxyBot._on_message
(src/bot/agent_proxy.py, lines 272-291): drop self-echo, pre-sync
events, wrong-room messages, unauthorized senders and messages that
trim to empty; otherwise forward the trimmed body to Copilot. -/
def on_message_action (config : BotConfig) (st : BridgeState)
    (roomId sender body : String) : MsgAction :=
  if sender = config.bot_user_id then .ignored
  else if !st.startup_sync_done then .ignored
  else if roomMismatch st.room_id roomId then .ignored
  else if sender ≠ config.admin_user then .ignored
  else
    let user_msg := pyStrip body
    if user_msg = "" then .ignored
    else .forwarded user_msg

/-- Outcome of one call to AgentProxyBot._send: dropped for lack of a
room, delivered, or dropped because the transport send raised. -/
inductive SendStatus where
  | noRoom
  | sent
  | failedSend (e : String)
deriving DecidableEq, Repr

/-- Model of AgentProxyBot._send (src/bot/agent_proxy.py, lines
302-319). transport abstracts matrix_client.room_send on the target
room and either succeeds or raises. The guard returns when no room id
is set, and the except clause swallows every transport error, so the
function itself never raises: it always returns an ok status. -/
def bot_send (room_id : Option String)
    (transport : String → Except String Unit) (text : String) :
    Except String SendStatus :=
  if !optTruthy room_id then .ok .noRoom
  else
    match transport text with
    | .ok _ => .ok .sent
    | .error e => .ok (.failedSend e)

/-! ### Helper lemmas about aggregation -/

/-- Python truthiness of a plain string. -/
def truthyStr (s : String) : Bool := s ≠ ""

lemma optTruthy_some (s : String) : optTruthy (some s) = truthyStr s := rfl

/-- Delivering one delta event per fragment appends exactly the truthy
fragments to the collected buffer, leaving the rest of the stream to be
processed. -/
lemma runEvents_deltas (ds : List String) (c : List String)
    (rest : List SessionEvent) :
    runEvents c (ds.map (fun s => SessionEvent.delta (some s)) ++ rest)
      = runEvents (c ++ ds.filter truthyStr) rest := by
  induction ds generalizing c with
  | nil => simp
  | cons d t ih =>
      simp only [List.map_cons, List.cons_append, runEvents, optTruthy_some,
        List.filter_cons]
      by_cases htr : truthyStr d = true
      · simp [htr, ih]
      · simp [htr, ih]

/-- Skipping falsy fragments does not change the concatenation. -/
lemma joinAll_filter (ds : List String) :
    joinAll (ds.filter truthyStr) = joinAll ds := by
  induction ds with
  | nil => rfl
  | cons d t ih =>
      by_cases htr : truthyStr d = true
      · simp [List.filter_cons, htr, joinAll, ih]
      · have hd : d = "" := by simpa [truthyStr] using htr
        subst hd
        rw [List.filter_cons, if_neg (by decide)]
        show joinAll (List.filter truthyStr t) = "" ++ joinAll t
        rw [String.empty_append]
        exact ih

/-- The terminal outcome of a pure deltas-then-idle stream. -/
lemma runEvents_deltasThenIdle (ds : List String) :
    runEvents [] (deltasThenIdle ds) = .finished (ds.filter truthyStr) none := by
  unfold deltasThenIdle
  rw [runEvents_deltas]
  simp [runEvents]

/-- The terminal outcome of a deltas-then-error stream. -/
lemma runEvents_deltasThenError (ds : List String) (m : String) :
    runEvents [] (deltasThenError ds m)
      = .finished (ds.filter truthyStr) (some m) := by
  unfold deltasThenError
  rw [runEvents_deltas]
  simp [runEvents, errMsg]

/-! ### Claim theorems: Send aggregation (C1, C3, C5, C6) -/

/-- C1 (counterexample): the aggregation-completeness claim fails as
stated at the empty delta sequence: an idle event with zero deltas makes
Send return the fixed marker "(empty response)", not the concatenation
of the (zero) delta fragments, which is the empty string. -/
theorem send_concat_counterexample :
    sendModel true (.noRaise (deltasThenIdle [])) = some "(empty response)"
    ∧ joinAll ([] : List String) = ""
    ∧ sendModel true (.noRaise (deltasThenIdle [])) ≠ some (joinAll []) := by
  refine ⟨rfl, rfl, by decide⟩

/-- C1 (amended): for every finite sequence of delta events followed by
an idle event delivered to an initialized session, Send returns exactly
the concatenation of the delta fragments in emission order, provided
the concatenation contains a non-whitespace character. -/
theorem send_aggregation_concat (ds : List String)
    (h : pyStrip (joinAll ds) ≠ "") :
    sendModel true (.noRaise (deltasThenIdle ds)) = some (joinAll ds) := by
  have hrun := runEvents_deltasThenIdle ds
  simp [sendModel, hrun, optTruthy, joinAll_filter, h]

/-- C1 (witness): a two-fragment stream aggregates to the exact
concatenation. -/
theorem send_aggregation_concat_witness :
    sendModel true (.noRaise (deltasThenIdle ["Hi", " there"]))
      = some "Hi there" :=
  (send_aggregation_concat ["Hi", " there"] (by decide)).trans (by decide)

/-- C6: every successful aggregation (terminal idle event) whose
accumulated buffer joins to an empty or whitespace-only string makes
Send return the fixed "(empty response)" marker. -/
theorem send_empty_marker (evs : List SessionEvent) (c : List String)
    (h1 : runEvents [] evs = .finished c none)
    (h2 : pyStrip (joinAll c) = "") :
    sendModel true (.noRaise evs) = some "(empty response)" := by
  simp [sendModel, h1, optTruthy, h2]

/-- C6 (witness): an idle event with zero deltas yields the marker. -/
theorem send_empty_marker_witness :
    sendModel true (.noRaise [SessionEvent.idle]) = some "(empty response)" :=
  send_empty_marker [SessionEvent.idle] [] rfl rfl

/-- C5 (counterexample): the error-with-partial claim fails as stated
at two concrete inputs. A single whitespace delta followed by an error
event leaves the buffer non-empty, yet Send returns the no-partial error
string, which does not begin with the buffered fragment. And an error
event carrying the empty message after one delta makes Send return the
plain buffer with no visibly marked warning suffix at all. -/
theorem send_error_counterexample :
    sendModel true (.noRaise (deltasThenError [" "] "boom"))
      = some "❌ Copilot error: boom"
    ∧ joinAll [" "] ≠ ""
    ∧ ("❌ Copilot error: boom").data.head? ≠ some ' '
    ∧ sendModel true (.noRaise (deltasThenError ["x"] "")) = some "x"
    ∧ '⚠' ∉ ("x" : String).data := by
  refine ⟨rfl, by decide, by decide, rfl, by decide⟩

/-- C5 (amended): for deltas followed by an error event carrying a
non-empty message m, Send returns the whitespace-trimmed concatenated
buffer followed by the warning suffix containing m when that trimmed
buffer is non-empty, and the fixed error-prefixed string containing m
when it is empty (in particular when no deltas were buffered). -/
theorem send_error_result (ds : List String) (m : String) (hm : m ≠ "") :
    sendModel true (.noRaise (deltasThenError ds m))
      = some (if pyStrip (joinAll ds) = "" then "❌ Copilot error: " ++ m
              else pyStrip (joinAll ds) ++ "\n\n⚠️ *Error: " ++ m ++ "*") := by
  have hrun := runEvents_deltasThenError ds m
  by_cases h : pyStrip (joinAll ds) = "" <;>
    simp [sendModel, hrun, optTruthy, joinAll_filter, hm, h]

/-- C5 (witness): the two-fragment stream of the spec scenario and the
zero-delta stream, both with message boom. -/
theorem send_error_result_witness :
    sendModel true (.noRaise (deltasThenError ["foo", "bar"] "boom"))
      = some "foobar\n\n⚠️ *Error: boom*"
    ∧ sendModel true (.noRaise (deltasThenError [] "boom"))
      = some "❌ Copilot error: boom" :=
  ⟨(send_error_result ["foo", "bar"] "boom" (by decide)).trans (by decide),
   (send_error_result [] "boom" (by decide)).trans (by decide)⟩

/-- C3 (counterexample): the exception-path claim fails as stated: with
a whitespace-only non-empty buffer at the moment of the exception, Send
returns the fixed error string rather than the buffered partial text
with a suffix. -/
theorem send_exception_counterexample :
    sendModel true (.raised [SessionEvent.delta (some " ")] "boom")
      = some "❌ Copilot error: boom"
    ∧ joinAll (collectedOf [SessionEvent.delta (some " ")]) ≠ ""
    ∧ ("❌ Copilot error: boom").data.head? ≠ some ' ' := by
  refine ⟨rfl, by decide, by decide⟩

/-- C3 (amended): every exception raised by the send/subscribe
machinery is caught and Send still returns a string: the
whitespace-trimmed buffered text with an error suffix when that trimmed
buffer is non-empty, otherwise the fixed error-prefixed string carrying
the exception detail. -/
theorem send_exception_result (evs : List SessionEvent) (e : String) :
    (sendModel true (.raised evs e)).isSome = true
    ∧ (pyStrip (joinAll (collectedOf evs)) ≠ "" →
        sendModel true (.raised evs e)
          = some (pyStrip (joinAll (collectedOf evs))
              ++ "\n\n⚠️ *(error: " ++ e ++ ")*"))
    ∧ (pyStrip (joinAll (collectedOf evs)) = "" →
        sendModel true (.raised evs e) = some ("❌ Copilot error: " ++ e)) := by
  refine ⟨?_, ?_, ?_⟩
  · by_cases h : pyStrip (joinAll (collectedOf evs)) = "" <;>
      simp [sendModel, h]
  · intro h
    simp [sendModel, h]
  · intro h
    simp [sendModel, h]

/-- C3 (witness): an exception after a buffered fragment, and an
exception with nothing buffered. -/
theorem send_exception_result_witness :
    sendModel true (.raised [SessionEvent.delta (some "foo")] "boom")
      = some "foo\n\n⚠️ *(error: boom)*"
    ∧ sendModel true (.raised [] "boom") = some "❌ Copilot error: boom" :=
  ⟨((send_exception_result [SessionEvent.delta (some "foo")] "boom").2.1
      (by decide)).trans (by decide),
   ((send_exception_result [] "boom").2.2 rfl).trans (by decide)⟩

/-! ### Helper lemmas about chunking -/

/-- Concatenating the fixed-size slices restores the original list. -/
lemma chunksAux_join (m : Nat) (l : List Char) :
    (chunksAux m l).flatten = l := by
  induction l using chunksAux.induct m with
  | case1 => rw [chunksAux]; rfl
  | case2 c cs ih =>
      rw [chunksAux, List.flatten_cons, ih, List.take_append_drop]

/-- Every slice holds at most m+1 characters. -/
lemma chunksAux_le (m : Nat) (l : List Char) :
    ∀ ch ∈ chunksAux m l, ch.length ≤ m + 1 := by
  induction l using chunksAux.induct m with
  | case1 =>
      intro ch h
      rw [chunksAux] at h
      exact absurd h (List.not_mem_nil _)
  | case2 c cs ih =>
      intro ch h
      rw [chunksAux] at h
      rcases List.mem_cons.mp h with h | h
      · subst h; exact List.length_take_le _ _
      · exact ih ch h

/-- The number of slices is the ceiling of the length divided by the
slice size. -/
lemma chunksAux_count (m : Nat) (l : List Char) :
    (chunksAux m l).length = (l.length + m) / (m + 1) := by
  induction l using chunksAux.induct m with
  | case1 =>
      rw [chunksAux]
      simp [Nat.div_eq_of_lt (Nat.lt_succ_self m)]
  | case2 c cs ih =>
      rw [chunksAux, List.length_cons, ih]
      simp only [List.length_drop, List.length_cons]
      have hrw : cs.length + 1 + m = cs.length + (m + 1) := by omega
      rw [hrw, Nat.add_div_right _ (Nat.succ_pos m)]
      rcases le_or_lt cs.length m with hle | hlt
      · rw [Nat.sub_eq_zero_of_le (by omega), Nat.zero_add,
          Nat.div_eq_of_lt (by omega), Nat.div_eq_of_lt (by omega)]
      · have hnum : cs.length + 1 - (m + 1) + m = cs.length := by omega
        rw [hnum]

/-- Concatenation of stringified slices is the stringified flattening. -/
lemma joinAll_asString (cs : List (List Char)) :
    joinAll (cs.map List.asString) = List.asString cs.flatten := by
  induction cs with
  | nil => rfl
  | cons a t ih => rw [List.map_cons, joinAll, ih]; rfl

/-- C2: for a response text of length L > 0, chunked delivery issues
ceil(L / 30000) transport sends, exactly one (the raw text) when
L <= 30000, every unlabeled slice body holds at most 30000 characters,
concatenating the slice bodies in order restores the text exactly, and
in the multi-part case each send is its slice prefixed with the
Part i/N label. -/
theorem deliver_chunked_law (text : String) (hL : 0 < text.length) :
    (deliverChunked text).length = (text.length + (MAX_CHUNK - 1)) / MAX_CHUNK
    ∧ (text.length ≤ MAX_CHUNK → deliverChunked text = [text])
    ∧ (∀ b ∈ chunkBodies text, b.length ≤ MAX_CHUNK)
    ∧ joinAll (chunkBodies text) = text
    ∧ (MAX_CHUNK < text.length →
        deliverChunked text
          = (chunkBodies text).enum.map fun p =>
              "**[Part " ++ toString (p.1 + 1) ++ "/"
                ++ toString (chunkBodies text).length ++ "]**\n" ++ p.2) := by
  have hdata : text.length = text.data.length := rfl
  refine ⟨?_, ?_, ?_, ?_, ?_⟩
  · by_cases hc : text.length ≤ MAX_CHUNK
    · rw [deliverChunked, if_pos hc]
      simp only [List.length_cons, List.length_nil]
      rw [MAX_CHUNK] at hc ⊢
      omega
    · rw [deliverChunked, if_neg hc]
      simp only [List.length_map, List.enum_length, chunkBodies,
        chunksAux_count, ← hdata]
      rw [MAX_CHUNK]
  · intro hc
    rw [deliverChunked, if_pos hc]
  · intro b hb
    rcases List.mem_map.mp hb with ⟨ch, hch, rfl⟩
    have h1 : (List.asString ch).length = ch.length := List.length_asString ch
    rw [h1]
    have h2 := chunksAux_le (MAX_CHUNK - 1) text.data ch hch
    rw [MAX_CHUNK] at h2 ⊢
    omega
  · rw [chunkBodies, joinAll_asString, chunksAux_join]
    rfl
  · intro hc
    rw [deliverChunked, if_neg (by omega)]

/-- C2 (witness): a short text is delivered as the single raw message. -/
theorem deliver_chunked_law_witness :
    deliverChunked "hello" = ["hello"] :=
  (deliver_chunked_law "hello" (by decide)).2.1 (by decide)

/-! ### Claim theorems: persistence and startup (C4, C8, C9) -/

/-- C4 (counterexample): a failing write is not swallowed: save_session
surfaces the error, and the persistence step of start propagates it, so
Start does not succeed. -/
theorem save_failure_counterexample :
    save_session ⟨fun _ => none, fun _ => some "disk full"⟩
        ⟨"/work/proj", "/store", "@bot:hs", "@admin:hs"⟩ "abc123"
      = .error "disk full"
    ∧ start_persist ⟨fun _ => none, fun _ => some "disk full"⟩
        ⟨"/work/proj", "/store", "@bot:hs", "@admin:hs"⟩ ⟨some "abc123"⟩
      = .error "disk full" := by
  constructor
  · rfl
  · simp [start_persist, save_session, optTruthy]

/-- C4 (amended): a failure of Save to write the session record
propagates: save_session has no handler, so the error escapes it and
escapes the persistence step of Start (the process-level handler then
logs it and exits); persistence is not best-effort. -/
theorem save_failure_propagates (fs : FS) (config : BotConfig)
    (sid e : String) (hw : fs.writeFails (sessionFilePath config) = some e)
    (hsid : sid ≠ "") :
    save_session fs config sid = .error e
    ∧ start_persist fs config ⟨some sid⟩ = .error e := by
  constructor
  · simp [save_session, hw]
  · simp [start_persist, save_session, optTruthy, hsid, hw]

/-- C4 (witness): a concrete failing disk. -/
theorem save_failure_propagates_witness :
    save_session ⟨fun _ => none, fun _ => some "read-only fs"⟩
        ⟨"/work/proj", "/store", "@bot:hs", "@admin:hs"⟩ "abc"
      = .error "read-only fs"
    ∧ start_persist ⟨fun _ => none, fun _ => some "read-only fs"⟩
        ⟨"/work/proj", "/store", "@bot:hs", "@admin:hs"⟩ ⟨some "abc"⟩
      = .error "read-only fs" :=
  save_failure_propagates _ _ "abc" "read-only fs" rfl (by decide)

/-- C8: a failed resumption attempt is caught: a fresh session is
created and resumed is false; a successful resumption records resumed
true and performs no second create_session call. -/
theorem start_resumption (sid : String) (hsid : sid ≠ "")
    (create : Option String → Except String SessionHandle) :
    (∀ s, create (some sid) = .ok s →
        start_model (some sid) create = .ok ⟨s, true, [some sid]⟩)
    ∧ (∀ e s, create (some sid) = .error e → create none = .ok s →
        start_model (some sid) create = .ok ⟨s, false, [some sid, none]⟩) := by
  constructor
  · intro s h
    simp [start_model, optTruthy, hsid, h]
  · intro e s h1 h2
    simp [start_model, optTruthy, hsid, h1, h2]

/-- C8 (witness): one backend that accepts the saved id and one that
rejects it. -/
theorem start_resumption_witness :
    start_model (some "abc123") (fun _ => .ok ⟨some "abc123"⟩)
      = .ok ⟨⟨some "abc123"⟩, true, [some "abc123"]⟩
    ∧ start_model (some "abc123")
        (fun o => match o with
          | some _ => .error "session not found"
          | none => .ok ⟨some "fresh1"⟩)
      = .ok ⟨⟨some "fresh1"⟩, false, [some "abc123", none]⟩ :=
  ⟨(start_resumption "abc123" (by decide) _).1 ⟨some "abc123"⟩ rfl,
   (start_resumption "abc123" (by decide) _).2 "session not found"
     ⟨some "fresh1"⟩ rfl rfl⟩

/-- C9: when the write succeeds, loading the per-context session file
immediately after saving a non-empty sessionId returns exactly that
sessionId. -/
theorem save_load_roundtrip (fs fs2 : FS) (config : BotConfig)
    (sid : String) (_hsid : sid ≠ "")
    (h : save_session fs config sid = .ok fs2) :
    load_saved_session fs2 config = some sid := by
  rcases hww : fs.writeFails (sessionFilePath config) with _ | e
  · simp only [save_session, hww] at h
    injection h with h2
    rw [← h2]
    simp [load_saved_session]
  · simp [save_session, hww] at h

/-- C9 (witness): saving on a healthy disk and reading back. -/
theorem save_load_roundtrip_witness :
    load_saved_session
        ⟨fun p =>
            if p = sessionFilePath
                ⟨"/work/proj", "/store", "@bot:hs", "@admin:hs"⟩
            then some (.obj (some "abc123"))
            else (fun _ => (none : Option FileContent)) p,
          fun _ => none⟩
        ⟨"/work/proj", "/store", "@bot:hs", "@admin:hs"⟩ = some "abc123" :=
  save_load_roundtrip ⟨fun _ => none, fun _ => none⟩ _
    ⟨"/work/proj", "/store", "@bot:hs", "@admin:hs"⟩ "abc123" (by decide) rfl

/-! ### Claim theorems: bridge filtering and outbound send (C7, C10) -/

/-- C7: none of the dropped inbound messages reaches
CopilotAgent.send: unauthorized sender, self-echo, pre-sync, wrong
room, and empty-after-trim all return without forwarding. -/
theorem on_message_guards (config : BotConfig) (st : BridgeState)
    (roomId sender body : String) :
    (sender ≠ config.admin_user →
        on_message_action config st roomId sender body = .ignored)
    ∧ (sender = config.bot_user_id →
        on_message_action config st roomId sender body = .ignored)
    ∧ (st.startup_sync_done = false →
        on_message_action config st roomId sender body = .ignored)
    ∧ (roomMismatch st.room_id roomId = true →
        on_message_action config st roomId sender body = .ignored)
    ∧ (pyStrip body = "" →
        on_message_action config st roomId sender body = .ignored) := by
  refine ⟨?_, ?_, ?_, ?_, ?_⟩ <;> intro h <;>
    simp [on_message_action, h]

/-- C7 (witness): one concrete drop per guard. -/
theorem on_message_guards_witness :
    on_message_action ⟨"/work/proj", "/store", "@bot:hs", "@admin:hs"⟩
        ⟨some "!room:hs", true⟩ "!room:hs" "@eve:hs" "hi" = .ignored
    ∧ on_message_action ⟨"/work/proj", "/store", "@bot:hs", "@admin:hs"⟩
        ⟨some "!room:hs", true⟩ "!room:hs" "@bot:hs" "hi" = .ignored
    ∧ on_message_action ⟨"/work/proj", "/store", "@bot:hs", "@admin:hs"⟩
        ⟨some "!room:hs", false⟩ "!room:hs" "@admin:hs" "hi" = .ignored
    ∧ on_message_action ⟨"/work/proj", "/store", "@bot:hs", "@admin:hs"⟩
        ⟨some "!room:hs", true⟩ "!other:hs" "@admin:hs" "hi" = .ignored
    ∧ on_message_action ⟨"/work/proj", "/store", "@bot:hs", "@admin:hs"⟩
        ⟨some "!room:hs", true⟩ "!room:hs" "@admin:hs" "   " = .ignored :=
  ⟨(on_message_guards _ ⟨some "!room:hs", true⟩ "!room:hs" "@eve:hs" "hi").1
      (by decide),
   (on_message_guards _ ⟨some "!room:hs", true⟩ "!room:hs" "@bot:hs" "hi").2.1
      (by decide),
   (on_message_guards _ ⟨some "!room:hs", false⟩ "!room:hs" "@admin:hs"
      "hi").2.2.1 rfl,
   (on_message_guards _ ⟨some "!room:hs", true⟩ "!other:hs" "@admin:hs"
      "hi").2.2.2.1 (by decide),
   (on_message_guards _ ⟨some "!room:hs", true⟩ "!room:hs" "@admin:hs"
      "   ").2.2.2.2 (by decide)⟩

/-- C10: the outbound send primitive always returns an ok status: a
missing room id drops the message, and any transport error is swallowed
as a logged failure status rather than re-raised. -/
theorem bot_send_never_raises (room_id : Option String)
    (transport : String → Except String Unit) (text : String) :
    (∃ st, bot_send room_id transport text = .ok st)
    ∧ (optTruthy room_id = false →
        bot_send room_id transport text = .ok .noRoom)
    ∧ (∀ e, optTruthy room_id = true → transport text = .error e →
        bot_send room_id transport text = .ok (.failedSend e)) := by
  refine ⟨?_, ?_, ?_⟩
  · cases hr : optTruthy room_id
    · exact ⟨.noRoom, by simp [bot_send, hr]⟩
    · rcases ht : transport text with e | u
      · exact ⟨.failedSend e, by simp [bot_send, hr, ht]⟩
      · exact ⟨.sent, by simp [bot_send, hr, ht]⟩
  · intro h
    simp [bot_send, h]
  · intro e h1 h2
    simp [bot_send, h1, h2]

/-- C10 (witness): a missing room and a failing transport. -/
theorem bot_send_never_raises_witness :
    bot_send none (fun _ => .ok ()) "hello" = .ok .noRoom
    ∧ bot_send (some "!room:hs") (fun _ => .error "timeout") "hello"
      = .ok (.failedSend "timeout") :=
  ⟨(bot_send_never_raises none (fun _ => .ok ()) "hello").2.1 rfl,
   (bot_send_never_raises (some "!room:hs") (fun _ => .error "timeout")
      "hello").2.2 "timeout" (by decide) rfl⟩
